import Mathlib

/-!
Shallow embedding of the client-side state-synchronization core of
static/js/main.js (class ProfessionalTradingSystem) of the Trading-system
repository, together with theorems settling the behavioural claims about
fetching, merging, selection defaults, rendering and the polling loops.

Conventions of the embedding:
* JavaScript numbers are modelled as rationals (ℚ); fields the code reads
  with a fallback (x ?? 0, x || d) are Option-valued.
* A fetch is modelled by passing its outcome (Except JsError payload) as an
  argument; a function that issues a fetch also reports how many network
  calls it made.
* A JavaScript function that can throw is modelled as Except-valued; a
  try/catch is the corresponding match that swallows the error.
-/

/-- Errors a JavaScript evaluation can surface: a transport failure, a
malformed payload, or a ReferenceError from reading an unbound identifier. -/
inductive JsError
  | networkError
  | decodeError
  | referenceError (name : String)
deriving DecidableEq, Repr

/-- Reading an identifier that has no binding in scope throws a
ReferenceError naming the identifier. -/
def unboundIdent (name : String) : Except JsError String :=
  Except.error (JsError.referenceError name)

/-- JavaScript truthiness test used by the code on optional strings:
null/undefined and the empty string are falsy. -/
def jsFalsyOptStr : Option String → Bool
  | none => true
  | some s => decide (s = "")

/-- JavaScript x || d for an optional string x: undefined and the empty
string fall back to the default. -/
def jsOrStr (x : Option String) (d : String) : String :=
  match x with
  | none => d
  | some s => if s = "" then d else s

/-- String interpolation of a possibly-undefined string value: JavaScript
prints the literal text undefined. -/
def jsStrOfOpt : Option String → String
  | none => "undefined"
  | some s => s

/-- Decimal digits of a natural number, left-padded with zeros to width p. -/
def natDigitsPadded (p n : Nat) : String :=
  let s := toString n
  String.mk (List.replicate (p - s.length) '0') ++ s

/-- Fixed-point rendering of a natural number n standing for n / 10 ^ p. -/
def fixedNatStr (p n : Nat) : String :=
  toString (n / 10 ^ p) ++ "." ++ natDigitsPadded p (n % 10 ^ p)

/-- JavaScript Number.prototype.toFixed(p) on an exact rational: the sign is
taken first, then the magnitude is rounded to the nearest multiple of
10 ^ (-p), ties to the larger value. -/
def jsToFixed (p : Nat) (x : ℚ) : String :=
  if x < 0 then "-" ++ fixedNatStr p (Int.toNat ⌊(10 ^ p : ℚ) * (-x) + 1 / 2⌋)
  else fixedNatStr p (Int.toNat ⌊(10 ^ p : ℚ) * x + 1 / 2⌋)

/-- toFixed(2), the formatting used for prices and percent changes. -/
def toFixed2 (x : ℚ) : String := jsToFixed 2 x

/-- An open position inside the portfolio payload (data model of the
positions list rendered by renderPositions, lines 240-274). -/
structure Position where
  symbol : Option String
  type : Option String
  size : Option ℚ
  pnl : Option ℚ
  opened_at : Option String
  timeframe : Option String
deriving DecidableEq, Repr

/-- The portfolio payload (read by renderHeader, updateTradeStats,
renderPortfolioStats and renderPositions). -/
structure Portfolio where
  balance : Option ℚ
  daily_pnl : Option ℚ
  win_rate : Option ℚ
  total_trades : Option ℚ
  long_trades : Option ℚ
  short_trades : Option ℚ
  positions : Option (List Position)
deriving DecidableEq, Repr

/-- One entry of the symbols payload (rendered by renderSymbols and
renderMarketTicker). -/
structure SymbolInfo where
  symbol : String
  price : Option ℚ
  change : Option ℚ
  timeframe : Option String
deriving DecidableEq, Repr

/-- One entry of the signals payload (rendered by renderSignals). -/
structure Signal where
  symbol : Option String
  timestamp : Option String
  signal_type : Option String
  entry_price : Option ℚ
  stop_loss : Option ℚ
  take_profit : Option ℚ
  timeframe : Option String
deriving DecidableEq, Repr

/-- One entry of the trades payload (rendered by renderTrades). -/
structure Trade where
  symbol : Option String
  timestamp : Option String
  signal_type : Option String
  type : Option String
  timeframe : Option String
  position_size : Option ℚ
  pnl : Option ℚ
  profit_potential : Option ℚ
deriving DecidableEq, Repr

/-- One candle of a market-data series: time, open, high, low, close
(lines 281-285 read exactly these fields). -/
structure Candle where
  time : ℚ
  open_ : ℚ
  high : ℚ
  low : ℚ
  close : ℚ
deriving DecidableEq, Repr

/-- The real-time tick payload (line 341 destructures price and change). -/
structure RealTimeTick where
  price : Option ℚ
  change : Option ℚ
deriving DecidableEq, Repr

/-- The client state: the this.data object (lines 3-10) together with the
selection fields (lines 12-13). The market object is modelled as an
association list from symbol to candle series. -/
structure TradingState where
  portfolio : Option Portfolio
  symbols : List SymbolInfo
  signals : List Signal
  trades : List Trade
  market : List (String × List Candle)
  realTime : Option RealTimeTick
  selectedSymbol : Option String
  selectedTimeframe : String
deriving DecidableEq, Repr

/-- The state built by the constructor (lines 2-18): empty collections,
no selection, default timeframe 1h. -/
def initialState : TradingState :=
  { portfolio := none
    symbols := []
    signals := []
    trades := []
    market := []
    realTime := none
    selectedSymbol := none
    selectedTimeframe := "1h" }

/-- Property read on the market object: this.data.market[symbol]. -/
def marketGet (m : List (String × List Candle)) (k : String) :
    Option (List Candle) :=
  (m.find? (fun p => p.1 == k)).map (fun p => p.2)

/-- Property assignment on the market object:
this.data.market[symbol] = candles (line 74) replaces the entry for an
existing key and otherwise appends a new one. -/
def marketSet (m : List (String × List Candle)) (k : String)
    (v : List Candle) : List (String × List Candle) :=
  if m.any (fun p => p.1 == k) then
    m.map (fun p => if p.1 == k then (k, v) else p)
  else m ++ [(k, v)]

/-- Lines 70-75: loadMarketData(symbol, timeframe). If the symbol argument
is falsy (null/undefined/empty) it returns at once; otherwise it issues one
network fetch and, on success, stores the candles under the symbol key.
The fetch outcome is an argument; the second component counts the network
calls issued. -/
def loadMarketData (st : TradingState) (symbolArg : Option String)
    (timeframe : String) (fetch : Except JsError (List Candle)) :
    Except JsError TradingState × Nat :=
  match symbolArg with
  | none => (Except.ok st, 0)
  | some s =>
    if s = "" then (Except.ok st, 0)
    else
      match fetch with
      | Except.error e => (Except.error e, 1)
      | Except.ok candles =>
          (Except.ok { st with market := marketSet st.market s candles }, 1)

/-- The call form loadMarketData() with both arguments defaulted to the
current selection (line 70's default parameters, used at line 372). -/
def loadMarketDataDefault (st : TradingState)
    (fetch : Except JsError (List Candle)) :
    Except JsError TradingState × Nat :=
  loadMarketData st st.selectedSymbol st.selectedTimeframe fetch

/-- Line 277: the series the chart reads,
this.data.market[this.selectedSymbol] || []. A null selection indexes the
object with a key that is absent, yielding the empty fallback. -/
def chartData (st : TradingState) : List Candle :=
  (st.selectedSymbol.bind (fun s => marketGet st.market s)).getD []

/-- What renderChart writes to the DOM when it does not return early: the
live-price text, the live-change text, and which of the positive/negative
classes are set (lines 301-310). -/
structure ChartView where
  priceText : String
  changeText : String
  positiveClass : Bool
  negativeClass : Bool
deriving DecidableEq, Repr

/-- Lines 276-311: renderChart. With an empty (or absent) series it returns
early with no DOM mutation (none). Otherwise it renders the last close as
the live price and the percent change ((last.close - data[0].open) /
data[0].open) * 100 with a + prefix and the positive class when the change
is nonnegative, the negative class when it is negative. -/
def renderChart (st : TradingState) : Option ChartView :=
  match chartData st with
  | [] => none
  | first :: rest =>
    let last := (first :: rest).getLastD first
    let change := (last.close - first.open_) / first.open_ * 100
    some
      { priceText := "$" ++ toFixed2 last.close
        changeText :=
          (if 0 ≤ change then "+" else "") ++ toFixed2 change ++ "%"
        positiveClass := decide (0 ≤ change)
        negativeClass := decide (change < 0) }

/-- Percent change of a candle series as the specification words it:
(lastClose − firstOpen) / firstOpen × 100 over the loaded series. -/
def chartChangeOfSeries (candles : List Candle) : ℚ :=
  match candles with
  | [] => 0
  | first :: rest =>
    (((first :: rest).getLastD first).close - first.open_) / first.open_ * 100

/-- Output of a list-fragment renderer: either the explicit empty-state
message written into the container, or the list of item HTML strings
appended to it. -/
inductive RenderOutput
  | emptyState (message : String)
  | items (rows : List String)
deriving DecidableEq, Repr

/-- Number of list entries a fragment rendered. -/
def renderedRowCount : RenderOutput → Nat
  | RenderOutput.emptyState _ => 0
  | RenderOutput.items rows => rows.length

/-- Line 182: the sublist of signals the signals fragment iterates over,
this.data.signals.slice(0, 10). -/
def signalsShown (st : TradingState) : List Signal :=
  st.signals.take 10

/-- Line 217: the sublist of trades the trades fragment iterates over,
this.data.trades.slice(0, 10). -/
def tradesShown (st : TradingState) : List Trade :=
  st.trades.take 10

/-- Lines 183-200: the item template of renderSignals. The earlier
interpolations evaluate the signal's own fields, but the final one at line
199 is dollar-brace symbol.timeframe close-brace and the identifier symbol
has no binding in this scope (the destructured symbol lives in
renderSymbols, a different method), so evaluating the template throws a
ReferenceError before any HTML is produced for the item. -/
def renderSignalItem (signal : Signal) : Except JsError String := do
  let type := (jsOrStr signal.signal_type "").toLower
  let head :=
    "<div><strong>" ++ jsStrOfOpt signal.symbol ++ "</strong><div class=meta>"
      ++ jsStrOfOpt signal.timestamp ++ "</div></div><div><span class=badge-"
      ++ type ++ ">" ++ jsStrOfOpt signal.signal_type
      ++ "</span><div class=meta>" ++ jsOrStr signal.timeframe ""
      ++ "</div></div><div><div class=meta>Entrada: $"
      ++ toFixed2 (signal.entry_price.getD 0)
      ++ "</div><div class=meta>SL: $" ++ toFixed2 (signal.stop_loss.getD 0)
      ++ " · TP: $" ++ toFixed2 (signal.take_profit.getD 0)
      ++ "</div></div><div class=ticker-timeframe>"
  let tf ← unboundIdent "symbol"
  pure (head ++ tf ++ "</div>")

/-- Lines 170-203: renderSignals. An empty signals list writes the explicit
empty-state message; otherwise the fragment iterates the first ten signals
and builds one item per signal (each of which can throw, see
renderSignalItem). -/
def renderSignals (st : TradingState) : Except JsError RenderOutput :=
  if st.signals.isEmpty then
    Except.ok (RenderOutput.emptyState "No hay señales disponibles.")
  else do
    let rows ← (signalsShown st).mapM renderSignalItem
    pure (RenderOutput.items rows)

/-- Lines 217-237: the item template of renderTrades. Every interpolation
reads the trade's own fields, so the item always evaluates to a string. -/
def renderTradeItem (trade : Trade) : String :=
  let pnl := ((trade.pnl).orElse (fun _ => trade.profit_potential)).getD 0
  let typeTxt := jsOrStr trade.signal_type (jsStrOfOpt trade.type)
  let type := (jsOrStr trade.signal_type (jsOrStr trade.type "")).toLower
  "<div><strong>" ++ jsStrOfOpt trade.symbol ++ "</strong><div class=meta>"
    ++ jsStrOfOpt trade.timestamp ++ "</div></div><div><span class=badge-"
    ++ type ++ ">" ++ typeTxt ++ "</span><div class=meta>"
    ++ jsOrStr trade.timeframe "" ++ "</div></div><div><div class=meta>Size: "
    ++ jsToFixed 4 (trade.position_size.getD 0) ++ "</div><div class=meta-"
    ++ (if 0 ≤ pnl then "positive" else "negative") ++ ">PnL: "
    ++ (if 0 ≤ pnl then "+" else "") ++ "$" ++ toFixed2 pnl ++ "</div></div>"

/-- Lines 205-238: renderTrades. An empty trades list writes the explicit
empty-state message; otherwise the first ten trades are rendered. No
interpolation can throw, so the output is total. -/
def renderTrades (st : TradingState) : RenderOutput :=
  if st.trades.isEmpty then
    RenderOutput.emptyState "Aún no hay trades ejecutados."
  else RenderOutput.items ((tradesShown st).map renderTradeItem)

/-- Lines 253-271: the item template of renderPositions. As in
renderSignals, the final interpolation at line 270 reads the identifier
position, which has no binding in scope (the loop variable is pos), so the
item throws a ReferenceError. -/
def renderPositionItem (pos : Position) : Except JsError String := do
  let type := (jsOrStr pos.type "").toLower
  let pnlNonneg := match pos.pnl with
    | none => false
    | some p => decide (0 ≤ p)
  let head :=
    "<div><strong>" ++ jsStrOfOpt pos.symbol ++ "</strong><div class=meta>"
      ++ jsOrStr pos.opened_at "" ++ "</div></div><div><span class=badge-"
      ++ type ++ ">" ++ jsStrOfOpt pos.type ++ "</span><div class=meta>"
      ++ jsOrStr pos.timeframe "" ++ "</div></div><div><div class=meta>Size: "
      ++ jsToFixed 4 (pos.size.getD 0) ++ "</div><div class=meta-"
      ++ (if pnlNonneg then "positive" else "negative") ++ ">PnL: "
      ++ (if pnlNonneg then "+" else "") ++ "$" ++ toFixed2 (pos.pnl.getD 0)
      ++ "</div></div><div class=position-timeframe>"
  let tf ← unboundIdent "position"
  pure (head ++ tf ++ "</div>")

/-- Lines 240-274: renderPositions. The rendered list is
this.data.portfolio?.positions || []; an empty list writes the explicit
empty-state message, a non-empty one builds one item per position. -/
def renderPositions (st : TradingState) : Except JsError RenderOutput :=
  let positions := (st.portfolio.bind Portfolio.positions).getD []
  if positions.isEmpty then
    Except.ok (RenderOutput.emptyState "Sin posiciones abiertas.")
  else do
    let rows ← positions.mapM renderPositionItem
    pure (RenderOutput.items rows)

/-- Lines 128-144: one ticker row. Price uses the truthiness test
s.price ? dollars : dash (so an absent or zero price renders the dash);
change falls back to 0 and picks the positive/negative class by sign. -/
def renderTickerRow (s : SymbolInfo) : String :=
  let change := s.change.getD 0
  "<strong>" ++ s.symbol ++ "</strong><span>"
    ++ (match s.price with
        | none => "—"
        | some p => if p = 0 then "—" else "$" ++ toFixed2 p)
    ++ "</span><span>" ++ jsOrStr s.timeframe "" ++ "</span><span class=change-"
    ++ (if 0 ≤ change then "positive" else "negative") ++ ">"
    ++ (if 0 ≤ change then "+" else "") ++ toFixed2 change ++ "%</span>"

/-- Lines 123-147: renderMarketTicker iterates this.data.symbols.forEach with
no slice, producing one row per symbol in the store. -/
def renderMarketTicker (st : TradingState) : List String :=
  st.symbols.map renderTickerRow

/-- Whether an Except result is a success. -/
def exIsOk {α : Type} : Except JsError α → Bool
  | Except.ok _ => true
  | Except.error _ => false

/-- Outcomes of the four fetches Promise.all starts at lines 30-35. -/
structure FetchResults where
  portfolio : Except JsError Portfolio
  symbols : Except JsError (List SymbolInfo)
  signals : Except JsError (List Signal)
  trades : Except JsError (List Trade)

/-- Lines 30-35 with lines 50-68: Promise.all starts loadPortfolio,
loadSymbols, loadSignals and loadTrades concurrently. A rejection of one
promise does not cancel the others, and each loadX performs its own merge
(lines 52, 57, 62, 67) exactly when its own fetch succeeded; the aggregate
rejection only decides whether the remainder of the try block runs. This
function applies the merges for the categories whose fetches succeeded. -/
def applyBatchMerges (st : TradingState) (r : FetchResults) : TradingState :=
  let st1 := match r.portfolio with
    | Except.ok p => { st with portfolio := some p }
    | Except.error _ => st
  let st2 := match r.symbols with
    | Except.ok v => { st1 with symbols := v }
    | Except.error _ => st1
  let st3 := match r.signals with
    | Except.ok v => { st2 with signals := v }
    | Except.error _ => st2
  match r.trades with
  | Except.ok v => { st3 with trades := v }
  | Except.error _ => st3

/-- Whether the await Promise.all at line 30 throws: it rejects as soon as
any of the four fetches fails. -/
def batchFailed (r : FetchResults) : Bool :=
  !(exIsOk r.portfolio && exIsOk r.symbols && exIsOk r.signals
      && exIsOk r.trades)

/-- Lines 37-40: after the batched fetches, if the selection is unset
(falsy) and the symbols collection is non-empty, the selection defaults to
the first symbol's identifier and its timeframe (or 1h when that field is
falsy). -/
def applySelectionDefault (st : TradingState) : TradingState :=
  match st.symbols with
  | [] => st
  | s0 :: _ =>
    if jsFalsyOptStr st.selectedSymbol then
      { st with selectedSymbol := some s0.symbol
                selectedTimeframe := jsOrStr s0.timeframe "1h" }
    else st

/-- Lines 28-48: loadInitialData. The four batched fetch/merge pairs run
first (applyBatchMerges); if any fetch failed the await Promise.all throws
and the catch at line 44 logs and notifies, leaving the merges of the
successful categories in place. Otherwise the selection default is applied
and loadMarketData runs for the current selection (its own failure is
caught by the same catch, after the selection was already set). -/
def loadInitialData (st : TradingState) (r : FetchResults)
    (marketFetch : Except JsError (List Candle)) : TradingState :=
  let merged := applyBatchMerges st r
  if batchFailed r then merged
  else
    let selected := applySelectionDefault merged
    match (loadMarketDataDefault selected marketFetch).1 with
    | Except.ok st2 => st2
    | Except.error _ => selected

/-- Lines 329-337, the body inside the try: fetch /api/real-time-data,
decode it, merge the tick (this.data.realTime = ...) and update the
real-time UI. A failing fetch or decode surfaces as the error. -/
def refreshRealTimeBody (st : TradingState)
    (fetch : Except JsError RealTimeTick) : Except JsError TradingState :=
  match fetch with
  | Except.error e => Except.error e
  | Except.ok tick => Except.ok { st with realTime := some tick }

/-- Lines 329-337: refreshRealTime wraps the body in try/catch; the catch
at line 334 logs the error and returns normally with the state unchanged,
so no error ever escapes the loop callback. -/
def refreshRealTime (st : TradingState)
    (fetch : Except JsError RealTimeTick) : TradingState :=
  match refreshRealTimeBody st fetch with
  | Except.ok st2 => st2
  | Except.error _ => st

/-- The 5-second real-time loop registered at lines 319-321: tick n applies
refreshRealTime to the outcome of the n-th fetch. The result after n ticks
is the state together with the number of network fetches issued (each tick
issues exactly one fetch at line 331). -/
def realTimeLoop (fetches : Nat → Except JsError RealTimeTick)
    (st : TradingState) : Nat → TradingState × Nat
  | 0 => (st, 0)
  | n + 1 =>
    let prev := realTimeLoop fetches st n
    (refreshRealTime prev.1 (fetches n), prev.2 + 1)

/-- The data categories held by the store. -/
inductive Category
  | portfolio
  | symbols
  | signals
  | trades
  | candles
  | realTime
deriving DecidableEq, Repr

/-- A periodic loop registered with setInterval: its period in milliseconds
and the store categories its callback refreshes. -/
structure IntervalLoop where
  periodMs : Nat
  categories : List Category
deriving DecidableEq, Repr

/-- Lines 324-327: refreshTicker re-fetches the symbols and re-renders the
ticker; the only category it refreshes is symbols. -/
def refreshTickerCategories : List Category := [Category.symbols]

/-- Lines 329-337: refreshRealTime refreshes only the realTime tick. -/
def refreshRealTimeCategories : List Category := [Category.realTime]

/-- Lines 28-48: the categories loadInitialData fetches: the four batched
categories plus the candles for the current selection (line 42). -/
def loadInitialDataCategories : List Category :=
  [Category.portfolio, Category.symbols, Category.signals, Category.trades,
   Category.candles]

/-- Lines 314-322: startRealTimeUpdates registers exactly two periodic
loops: refreshTicker every 15000 ms and refreshRealTime every 5000 ms. -/
def startRealTimeUpdates : List IntervalLoop :=
  [{ periodMs := 15000, categories := refreshTickerCategories },
   { periodMs := 5000, categories := refreshRealTimeCategories }]

/-- The steps of init (lines 20-25), in order. -/
inductive InitStep
  | loadInitialData
  | setupEventListeners
  | refreshRealTime
  | startRealTimeUpdates
deriving DecidableEq, Repr

/-- Lines 20-25: init awaits loadInitialData, wires the listeners, runs one
immediate refreshRealTime and then registers the periodic loops. -/
def initSteps : List InitStep :=
  [InitStep.loadInitialData, InitStep.setupEventListeners,
   InitStep.refreshRealTime, InitStep.startRealTimeUpdates]

/-- The network view of the client used for the request-coalescing claims:
the store plus the list of outstanding candle fetches, each recorded as the
(symbol, timeframe) pair of its URL. -/
structure NetState where
  st : TradingState
  outstanding : List (String × String)
deriving DecidableEq, Repr

/-- Lines 70-75, issue phase: a call to loadMarketData with a falsy symbol
returns at once; otherwise line 72 issues the fetch unconditionally. The
method keeps no in-flight bookkeeping, so a new request is appended to the
outstanding calls regardless of what is already in flight. -/
def loadMarketDataStart (ns : NetState) (symbolArg : Option String)
    (timeframe : String) : NetState :=
  match symbolArg with
  | none => ns
  | some s =>
    if s = "" then ns
    else { ns with outstanding := ns.outstanding ++ [(s, timeframe)] }

/-- Completion phase of a candle fetch: the awaited response for symbol s
resolves (merging the candles at line 74) or rejects, and the call leaves
the outstanding list. -/
def loadMarketDataComplete (ns : NetState) (s : String)
    (result : Except JsError (List Candle)) : NetState :=
  { st := match result with
      | Except.ok candles =>
          { ns.st with market := marketSet ns.st.market s candles }
      | Except.error _ => ns.st
    outstanding := ns.outstanding.eraseP (fun p => p.1 == s) }

/-- Lines 370-376: a click on refresh-market calls loadMarketData() with
the defaulted arguments, i.e. the current selection. -/
def refreshMarketClick (ns : NetState) : NetState :=
  loadMarketDataStart ns ns.st.selectedSymbol ns.st.selectedTimeframe

/-- A concrete signal used to exercise the signals renderer. -/
def exSignal : Signal :=
  { symbol := some "BTCUSDT"
    timestamp := some "2024-01-01 00:00"
    signal_type := some "BUY"
    entry_price := some 100
    stop_loss := some 95
    take_profit := some 110
    timeframe := some "1h" }

/-- A store whose signals list is non-empty. -/
def exSignalStore : TradingState :=
  { initialState with signals := [exSignal] }

/-- A concrete open position. -/
def exPosition : Position :=
  { symbol := some "BTCUSDT"
    type := some "LONG"
    size := some 1
    pnl := some 5
    opened_at := some "2024-01-01"
    timeframe := some "1h" }

/-- A portfolio payload holding one open position. -/
def exPortfolio : Portfolio :=
  { balance := some 1000
    daily_pnl := some 0
    win_rate := some 50
    total_trades := some 1
    long_trades := some 1
    short_trades := some 0
    positions := some [exPosition] }

/-- A store whose portfolio holds a non-empty positions list. -/
def exPositionStore : TradingState :=
  { initialState with portfolio := some exPortfolio }

/-- A symbol entry named n with fixed price and change. -/
def exSym (n : String) : SymbolInfo :=
  { symbol := n, price := some 10, change := some 1, timeframe := some "1h" }

/-- A store holding six symbols. -/
def exSixSymbolStore : TradingState :=
  { initialState with
      symbols := [exSym "A", exSym "B", exSym "C", exSym "D", exSym "E",
                  exSym "F"] }

/-- A network state with the selection set to BTC and no call in flight. -/
def exNetState : NetState :=
  { st := { initialState with selectedSymbol := some "BTC" }
    outstanding := [] }

/-- A fetch-outcome sequence whose first real-time fetch fails with a
NetworkError and whose later fetches succeed. -/
def wFetches : Nat → Except JsError RealTimeTick :=
  fun k =>
    if k = 0 then Except.error JsError.networkError
    else Except.ok { price := some 1, change := some 2 }

/-- The BTC symbol entry of the selection-default scenario. -/
def exBTC : SymbolInfo :=
  { symbol := "BTC", price := some 100, change := some 1,
    timeframe := some "1h" }

/-- Batched fetch outcomes in which all four categories succeed and the
symbols payload starts with BTC. -/
def exFetchResults : FetchResults :=
  { portfolio := Except.ok exPortfolio
    symbols := Except.ok [exBTC]
    signals := Except.ok []
    trades := Except.ok [] }

/-- Batched fetch outcomes of a partial failure: the portfolio fetch
rejects while the symbols fetch resolves with [BTC] and the other two
succeed. -/
def exFailFetchResults : FetchResults :=
  { portfolio := Except.error JsError.networkError
    symbols := Except.ok [exBTC]
    signals := Except.ok []
    trades := Except.ok [] }

/-- First candle of the chart scenario: open 100, close 110. -/
def exC1 : Candle :=
  { time := 1, open_ := 100, high := 110, low := 95, close := 110 }

/-- Second candle of the chart scenario: open 110, close 90. -/
def exC2 : Candle :=
  { time := 2, open_ := 110, high := 115, low := 85, close := 90 }

/-- A store with the BTC series [exC1, exC2] loaded and BTC selected. -/
def exChartStore : TradingState :=
  { initialState with
      selectedSymbol := some "BTC"
      market := [("BTC", [exC1, exC2])] }

theorem applyBatchMerges_fields (st : TradingState) (r : FetchResults) :
    (applyBatchMerges st r).portfolio
        = (match r.portfolio with
           | Except.ok p => some p
           | Except.error _ => st.portfolio) ∧
    (applyBatchMerges st r).symbols
        = (match r.symbols with
           | Except.ok v => v
           | Except.error _ => st.symbols) ∧
    (applyBatchMerges st r).signals
        = (match r.signals with
           | Except.ok v => v
           | Except.error _ => st.signals) ∧
    (applyBatchMerges st r).trades
        = (match r.trades with
           | Except.ok v => v
           | Except.error _ => st.trades) ∧
    (applyBatchMerges st r).selectedSymbol = st.selectedSymbol ∧
    (applyBatchMerges st r).selectedTimeframe = st.selectedTimeframe ∧
    (applyBatchMerges st r).market = st.market := by
  obtain ⟨p, sy, sg, tr⟩ := r
  cases p <;> cases sy <;> cases sg <;> cases tr <;>
    exact ⟨rfl, rfl, rfl, rfl, rfl, rfl, rfl⟩

theorem applySelectionDefault_preserves (st : TradingState) :
    (applySelectionDefault st).portfolio = st.portfolio ∧
    (applySelectionDefault st).symbols = st.symbols ∧
    (applySelectionDefault st).signals = st.signals ∧
    (applySelectionDefault st).trades = st.trades ∧
    (applySelectionDefault st).market = st.market := by
  obtain ⟨pf, sys, sgs, trs, mkt, rt, sel, tf⟩ := st
  cases sys with
  | nil => exact ⟨rfl, rfl, rfl, rfl, rfl⟩
  | cons s0 rest =>
    by_cases h : jsFalsyOptStr sel <;> simp [applySelectionDefault, h]

theorem applySelectionDefault_sets (st : TradingState) (s0 : SymbolInfo)
    (rest : List SymbolInfo) (hsym : st.symbols = s0 :: rest)
    (hsel : jsFalsyOptStr st.selectedSymbol = true) :
    (applySelectionDefault st).selectedSymbol = some s0.symbol ∧
    (applySelectionDefault st).selectedTimeframe = jsOrStr s0.timeframe "1h" := by
  obtain ⟨pf, sys, sgs, trs, mkt, rt, sel, tf⟩ := st
  dsimp at hsym hsel
  subst hsym
  simp [applySelectionDefault, hsel]

theorem loadMarketData_ok_preserves (st : TradingState)
    (symbolArg : Option String) (tf : String)
    (fetch : Except JsError (List Candle)) (st2 : TradingState)
    (h : (loadMarketData st symbolArg tf fetch).1 = Except.ok st2) :
    st2.portfolio = st.portfolio ∧ st2.symbols = st.symbols ∧
    st2.signals = st.signals ∧ st2.trades = st.trades ∧
    st2.selectedSymbol = st.selectedSymbol ∧
    st2.selectedTimeframe = st.selectedTimeframe := by
  cases symbolArg with
  | none =>
    simp only [loadMarketData, Except.ok.injEq] at h
    subst h
    exact ⟨rfl, rfl, rfl, rfl, rfl, rfl⟩
  | some s =>
    by_cases hs : s = ""
    · simp only [loadMarketData, hs, if_true, Except.ok.injEq] at h
      subst h
      exact ⟨rfl, rfl, rfl, rfl, rfl, rfl⟩
    · cases fetch with
      | error e => simp [loadMarketData, hs] at h
      | ok candles =>
        simp only [loadMarketData, hs, if_false, Except.ok.injEq] at h
        subst h
        exact ⟨rfl, rfl, rfl, rfl, rfl, rfl⟩

/-- C1 counterexample: starting from a store with BTC selected and no
candle fetch in flight, a second refresh-market request issued while the
first request's fetch is still outstanding leaves two outstanding candle
network calls, not one — loadMarketData keeps no in-flight bookkeeping, so
nothing coalesces the second request onto the first. -/
theorem candles_request_not_coalesced_cex :
    (refreshMarketClick (refreshMarketClick exNetState)).outstanding.length
        = 2 ∧
    ¬ (refreshMarketClick (refreshMarketClick exNetState)).outstanding.length
        = 1 := by
  decide

/-- C1 amended: a candles request for a set (non-empty) symbol always
issues its own network call, appending it to whatever calls are already
outstanding; overlapping requests are never coalesced, so two requests
issued while the first is still in flight leave two calls outstanding. -/
theorem loadMarketDataStart_appends_request (ns : NetState) (s : String)
    (tf : String) (h : s ≠ "") :
    (loadMarketDataStart ns (some s) tf).outstanding
      = ns.outstanding ++ [(s, tf)] := by
  simp [loadMarketDataStart, h]

/-- Witness for the amended C1 theorem at symbol BTC, timeframe 1h. -/
theorem loadMarketDataStart_appends_request_witness :
    "BTC" ≠ "" ∧
    (loadMarketDataStart exNetState (some "BTC") "1h").outstanding
      = exNetState.outstanding ++ [("BTC", "1h")] :=
  ⟨by decide,
   loadMarketDataStart_appends_request exNetState "BTC" "1h" (by decide)⟩

/-- C4: the claim that every fragment renderer completes without failing is
contradicted by the code: with any non-empty signals list, renderSignals
throws a ReferenceError because line 199 reads the unbound identifier
symbol, and with any open position, renderPositions throws a
ReferenceError because line 270 reads the unbound identifier position. -/
theorem render_fragments_reference_error :
    renderSignals exSignalStore
        = Except.error (JsError.referenceError "symbol") ∧
    renderPositions exPositionStore
        = Except.error (JsError.referenceError "position") := by
  constructor <;> rfl

/-- C5 counterexample: startRealTimeUpdates registers no loop with a
30000 ms period, and no registered loop refreshes portfolio, symbols,
signals, trades and candles together — the claimed 30-second full-resync
loop does not exist. -/
theorem full_resync_loop_absent_cex :
    ¬ ∃ l ∈ startRealTimeUpdates, l.periodMs = 30000 ∧
        Category.portfolio ∈ l.categories ∧
        Category.symbols ∈ l.categories ∧
        Category.signals ∈ l.categories ∧
        Category.trades ∈ l.categories ∧
        Category.candles ∈ l.categories := by
  decide

/-- C5 amended: the full refresh of portfolio, symbols, signals, trades and
the candles for the current selection happens once at page load (init's
first step is loadInitialData); the only periodic loops registered are a
symbols/ticker refresh every 15 seconds and a real-time tick refresh every
5 seconds, and no periodic loop has a 30-second period. -/
theorem periodic_loops_structure :
    initSteps.head? = some InitStep.loadInitialData ∧
    loadInitialDataCategories
      = [Category.portfolio, Category.symbols, Category.signals,
         Category.trades, Category.candles] ∧
    startRealTimeUpdates
      = [{ periodMs := 15000, categories := [Category.symbols] },
         { periodMs := 5000, categories := [Category.realTime] }] ∧
    ∀ l ∈ startRealTimeUpdates, l.periodMs ≠ 30000 := by
  refine ⟨rfl, rfl, rfl, ?_⟩
  decide

/-- C7 counterexample: with six symbols in the store the market ticker
renders six rows — the ticker fragment iterates every symbol and does not
cap its output at 5. -/
theorem ticker_cap_cex :
    (renderMarketTicker exSixSymbolStore).length = 6 ∧
    ¬ (renderMarketTicker exSixSymbolStore).length ≤ 5 := by
  decide

/-- C7 amended: the signals fragment iterates at most the first 10 entries
of the signals list and the trades fragment renders at most the first 10
trades, but the ticker fragment renders exactly one row per symbol in the
store, with no cap. -/
theorem render_list_caps (st : TradingState) :
    (signalsShown st).length ≤ 10 ∧
    renderedRowCount (renderTrades st) ≤ 10 ∧
    (renderMarketTicker st).length = st.symbols.length := by
  refine ⟨?_, ?_, ?_⟩
  · simp [signalsShown, List.length_take]
  · unfold renderTrades
    split
    · simp [renderedRowCount]
    · simp [renderedRowCount, tradesShown, List.length_take]
  · simp [renderMarketTicker]

/-- C8: when the n-th real-time fetch fails, the error surfaces inside the
loop body, the catch at the loop boundary swallows it leaving the state
unchanged, the next scheduled tick still runs refreshRealTime on the next
fetch outcome, and every tick issues exactly one fetch — the failure is
never fatal to the loop. -/
theorem realTime_error_not_fatal
    (fetches : Nat → Except JsError RealTimeTick) (st : TradingState)
    (n : Nat) (e : JsError) (h : fetches n = Except.error e) :
    refreshRealTimeBody (realTimeLoop fetches st n).1 (fetches n)
        = Except.error e ∧
    (realTimeLoop fetches st (n + 1)).1 = (realTimeLoop fetches st n).1 ∧
    (realTimeLoop fetches st (n + 2)).1
        = refreshRealTime (realTimeLoop fetches st (n + 1)).1
            (fetches (n + 1)) ∧
    ∀ m, (realTimeLoop fetches st m).2 = m := by
  refine ⟨?_, ?_, rfl, ?_⟩
  · rw [h]; rfl
  · simp [realTimeLoop, refreshRealTime, refreshRealTimeBody, h]
  · intro m
    induction m with
    | zero => rfl
    | succ k ih => simp [realTimeLoop, ih]

/-- Witness for C8: the first fetch of wFetches fails with a NetworkError,
the erroring tick leaves the state unchanged, and two ticks have issued
two fetches. -/
theorem realTime_error_not_fatal_witness :
    wFetches 0 = Except.error JsError.networkError ∧
    (realTimeLoop wFetches initialState 1).1
        = (realTimeLoop wFetches initialState 0).1 ∧
    (realTimeLoop wFetches initialState 2).2 = 2 := by
  have h := realTime_error_not_fatal wFetches initialState 0
    JsError.networkError rfl
  exact ⟨rfl, h.2.1, h.2.2.2 2⟩

/-- C9: a loadMarketData call whose symbol argument (the current selection
when defaulted) is unset — null, undefined or empty — issues no network
fetch and returns with the entire store, every candle series included,
unchanged. -/
theorem loadMarketData_unset_symbol_noop (st : TradingState)
    (symbolArg : Option String) (tf : String)
    (fetch : Except JsError (List Candle))
    (h : jsFalsyOptStr symbolArg = true) :
    loadMarketData st symbolArg tf fetch = (Except.ok st, 0) := by
  cases symbolArg with
  | none => rfl
  | some s =>
    simp only [jsFalsyOptStr, decide_eq_true_eq] at h
    simp [loadMarketData, h]

/-- Witness for C9: with no selection set, the defaulted call is a no-op
issuing zero fetches. -/
theorem loadMarketData_unset_symbol_noop_witness :
    jsFalsyOptStr initialState.selectedSymbol = true ∧
    loadMarketDataDefault initialState (Except.ok [])
      = (Except.ok initialState, 0) :=
  ⟨rfl,
   loadMarketData_unset_symbol_noop initialState initialState.selectedSymbol
     initialState.selectedTimeframe (Except.ok []) rfl⟩

/-- C10: when the selected symbol has no candle series loaded, or an empty
one, renderChart takes the early return: the fallback series is empty and
the renderer yields none, mutating nothing and never reading the first or
last element of the empty series. -/
theorem renderChart_empty_early_return (st : TradingState)
    (h : chartData st = []) : renderChart st = none := by
  unfold renderChart
  rw [h]

/-- Witness for C10: the constructor state has no series loaded and the
chart renderer returns none on it. -/
theorem renderChart_empty_early_return_witness :
    chartData initialState = [] ∧ renderChart initialState = none :=
  ⟨rfl, renderChart_empty_early_return initialState rfl⟩

theorem loadInitialData_keeps_batch (st : TradingState) (r : FetchResults)
    (mf : Except JsError (List Candle)) :
    (loadInitialData st r mf).portfolio = (applyBatchMerges st r).portfolio ∧
    (loadInitialData st r mf).symbols = (applyBatchMerges st r).symbols ∧
    (loadInitialData st r mf).signals = (applyBatchMerges st r).signals ∧
    (loadInitialData st r mf).trades = (applyBatchMerges st r).trades := by
  unfold loadInitialData
  by_cases hf : batchFailed r
  · simp [hf]
  · simp only [hf, Bool.false_eq_true, if_false]
    have hsel := applySelectionDefault_preserves (applyBatchMerges st r)
    cases hres : (loadMarketDataDefault
        (applySelectionDefault (applyBatchMerges st r)) mf).1 with
    | ok st2 =>
      have hp := loadMarketData_ok_preserves
        (applySelectionDefault (applyBatchMerges st r))
        (applySelectionDefault (applyBatchMerges st r)).selectedSymbol
        (applySelectionDefault (applyBatchMerges st r)).selectedTimeframe
        mf st2 hres
      exact ⟨hp.1.trans hsel.1, hp.2.1.trans hsel.2.1,
             hp.2.2.1.trans hsel.2.2.1, hp.2.2.2.1.trans hsel.2.2.2.1⟩
    | error e =>
      exact ⟨hsel.1, hsel.2.1, hsel.2.2.1, hsel.2.2.2.1⟩

/-- C2: in loadInitialData the four batched fetch/merge pairs are
independent: for each of portfolio, symbols, signals and trades, the final
store holds the fetched payload exactly when that category's own fetch
succeeded and keeps its previous value when it failed, whatever the
outcomes of the other categories and of the candles fetch. -/
theorem loadInitialData_category_independence (st : TradingState)
    (r : FetchResults) (mf : Except JsError (List Candle)) :
    (loadInitialData st r mf).portfolio
        = (match r.portfolio with
           | Except.ok p => some p
           | Except.error _ => st.portfolio) ∧
    (loadInitialData st r mf).symbols
        = (match r.symbols with
           | Except.ok v => v
           | Except.error _ => st.symbols) ∧
    (loadInitialData st r mf).signals
        = (match r.signals with
           | Except.ok v => v
           | Except.error _ => st.signals) ∧
    (loadInitialData st r mf).trades
        = (match r.trades with
           | Except.ok v => v
           | Except.error _ => st.trades) := by
  have hk := loadInitialData_keeps_batch st r mf
  have hb := applyBatchMerges_fields st r
  exact ⟨hk.1.trans hb.1, hk.2.1.trans hb.2.1,
         hk.2.2.1.trans hb.2.2.1, hk.2.2.2.trans hb.2.2.2.1⟩

/-- C6 counterexample: the claim as stated fails on a partial-failure
load. With the portfolio fetch rejecting while the symbols fetch resolves
with [BTC], the symbols merge at line 57 still lands (Promise.all does not
cancel siblings) but the await at line 30 throws, the catch at line 44
runs, and lines 37-40 never execute: after the initial load the symbols
collection is non-empty, yet the selection is still unset rather than
equal to the first symbol's identifier. -/
theorem selection_unset_on_partial_failure_cex :
    (loadInitialData initialState exFailFetchResults (Except.ok [])).symbols
        = [exBTC] ∧
    (loadInitialData initialState exFailFetchResults
        (Except.ok [])).selectedSymbol = none ∧
    ¬ (loadInitialData initialState exFailFetchResults
        (Except.ok [])).selectedSymbol = some "BTC" := by
  refine ⟨rfl, rfl, ?_⟩
  decide

/-- C6 amended: after an initial load in which all four batched fetches
succeed, if the fetched symbols collection is non-empty and no selection
was previously set, the selection becomes the first symbol's identifier
together with that symbol's timeframe, falling back to 1h when the first
symbol's timeframe is absent or empty (when any batched fetch fails, the
default at lines 37-40 is skipped and the selection stays unset). -/
theorem selection_defaults_to_first_symbol (st : TradingState)
    (r : FetchResults) (mf : Except JsError (List Candle))
    (s0 : SymbolInfo) (rest : List SymbolInfo)
    (hsel : st.selectedSymbol = none)
    (hsym : r.symbols = Except.ok (s0 :: rest))
    (hp : exIsOk r.portfolio = true) (hsg : exIsOk r.signals = true)
    (htr : exIsOk r.trades = true) :
    (loadInitialData st r mf).selectedSymbol = some s0.symbol ∧
    (loadInitialData st r mf).selectedTimeframe
      = jsOrStr s0.timeframe "1h" := by
  have hb := applyBatchMerges_fields st r
  have hfail : batchFailed r = false := by
    simp only [batchFailed, hp, hsg, htr, hsym]
    simp [exIsOk]
  have hmsym : (applyBatchMerges st r).symbols = s0 :: rest := by
    rw [hb.2.1, hsym]
  have hmsel : jsFalsyOptStr (applyBatchMerges st r).selectedSymbol
      = true := by
    rw [hb.2.2.2.2.1, hsel]; rfl
  have hset := applySelectionDefault_sets (applyBatchMerges st r) s0 rest
    hmsym hmsel
  unfold loadInitialData
  simp only [hfail, Bool.false_eq_true, if_false]
  cases hres : (loadMarketDataDefault
      (applySelectionDefault (applyBatchMerges st r)) mf).1 with
  | ok st2 =>
    have hpres := loadMarketData_ok_preserves
      (applySelectionDefault (applyBatchMerges st r))
      (applySelectionDefault (applyBatchMerges st r)).selectedSymbol
      (applySelectionDefault (applyBatchMerges st r)).selectedTimeframe
      mf st2 hres
    exact ⟨hpres.2.2.2.2.1.trans hset.1, hpres.2.2.2.2.2.trans hset.2⟩
  | error e =>
    exact hset

/-- Witness for the amended C6 theorem: starting from the constructor
state, a successful load
whose symbols payload starts with BTC (timeframe 1h) sets the selection to
BTC with timeframe 1h. -/
theorem selection_defaults_to_first_symbol_witness :
    initialState.selectedSymbol = none ∧
    (loadInitialData initialState exFetchResults
        (Except.ok [])).selectedSymbol = some "BTC" ∧
    (loadInitialData initialState exFetchResults
        (Except.ok [])).selectedTimeframe = "1h" := by
  have h := selection_defaults_to_first_symbol initialState exFetchResults
    (Except.ok []) exBTC [] rfl rfl rfl rfl rfl
  exact ⟨rfl, h.1, h.2.trans rfl⟩

/-- C3: for every non-empty candle series loaded for the selected symbol,
renderChart renders a percent change equal to
(last close − first open) / first open × 100, formatted to two decimal
places by toFixed(2) with a plus prefix for nonnegative values, and it sets
the negative class exactly when that change is negative. -/
theorem renderChart_percent_change (st : TradingState) (first : Candle)
    (rest : List Candle) (h : chartData st = first :: rest) :
    ∃ v, renderChart st = some v ∧
      v.changeText
        = (if 0 ≤ chartChangeOfSeries (first :: rest) then "+" else "")
            ++ toFixed2 (chartChangeOfSeries (first :: rest)) ++ "%" ∧
      v.positiveClass = decide (0 ≤ chartChangeOfSeries (first :: rest)) ∧
      v.negativeClass = decide (chartChangeOfSeries (first :: rest) < 0) := by
  unfold renderChart
  rw [h]
  exact ⟨_, rfl, rfl, rfl, rfl⟩

/-- Witness for C3, the spec's concrete scenario: with the series
[(time 1, open 100, close 110), (time 2, open 110, close 90)] loaded for
the selected symbol, the chart renders -10.00% with the negative class set
and the positive class clear. -/
theorem renderChart_percent_change_witness :
    chartData exChartStore = exC1 :: [exC2] ∧
    ∃ v, renderChart exChartStore = some v ∧
      v.changeText = "-10.00%" ∧ v.negativeClass = true ∧
      v.positiveClass = false := by
  refine ⟨rfl, ?_⟩
  obtain ⟨v, hv, hct, hpos, hneg⟩ :=
    renderChart_percent_change exChartStore exC1 [exC2] rfl
  have hval : chartChangeOfSeries [exC1, exC2] = -10 := by
    simp only [chartChangeOfSeries, exC1, exC2]
    norm_num
  refine ⟨v, hv, ?_, ?_, ?_⟩
  · rw [hct, hval]
    have hlt : (-10 : ℚ) < 0 := by norm_num
    have hnonneg : ¬ (0 : ℚ) ≤ -10 := by norm_num
    have hfloor : (⌊(10 : ℚ) ^ 2 * -(-10 : ℚ) + 1 / 2⌋ : ℤ) = 1000 := by
      norm_num
    simp only [toFixed2, jsToFixed]
    rw [if_neg hnonneg, if_pos hlt, hfloor]
    rfl
  · rw [hneg, hval]; decide
  · rw [hpos, hval]; decide
